import Mathlib

/-!
Shallow embedding of the multirec recording application core:
`src/multirec/config/config.py`, `src/multirec/recorder/recorder.py` and
`src/multirec/scheduler/scheduler.py`, together with theorems settling the
specification claims about them.  Python ints are embedded as `Int`,
Python floats as `Rat`, paths and other text as `String`.
-/

namespace Multirec

/-- Embeds the pydantic `Config` model of `config.py`.  `download_dir` and
`db_path` are kept as plain strings; the three numeric limits are Python
ints, and `backoff_base_seconds` is a Python float embedded as `Rat`. -/
structure Config where
  download_dir : String
  db_path : String
  concurrency_limit : Int
  segment_duration_min : Int
  retry_max_attempts : Int
  backoff_base_seconds : Rat
  deriving Repr, DecidableEq

/-- Embeds the `validate_concurrency` field validator on `Config`:
raises `ValueError` (modelled as `Except.error`) when the value is below 1. -/
def validate_concurrency (v : Int) : Except String Int :=
  if v < 1 then Except.error "concurrency_limit must be at least 1" else Except.ok v

/-- Embeds the `validate_segment_duration` field validator on `Config`. -/
def validate_segment_duration (v : Int) : Except String Int :=
  if v < 1 then Except.error "segment_duration_min must be at least 1 minute" else Except.ok v

/-- Pydantic construction of a `Config`: each field validator declared in
`config.py` runs on its field and a failing validator aborts construction.
Only `concurrency_limit` and `segment_duration_min` have validators;
`retry_max_attempts` and `backoff_base_seconds` are accepted as given. -/
def mkConfig (download_dir db_path : String)
    (concurrency_limit segment_duration_min retry_max_attempts : Int)
    (backoff_base_seconds : Rat) : Except String Config :=
  match validate_concurrency concurrency_limit with
  | Except.error e => Except.error e
  | Except.ok c =>
    match validate_segment_duration segment_duration_min with
    | Except.error e => Except.error e
    | Except.ok s =>
      Except.ok { download_dir := download_dir, db_path := db_path,
                  concurrency_limit := c, segment_duration_min := s,
                  retry_max_attempts := retry_max_attempts,
                  backoff_base_seconds := backoff_base_seconds }

/-- The field defaults declared on `Config` in `config.py`. -/
def defaultConfig : Config :=
  { download_dir := "~/multirec_downloads", db_path := "~/.multirec.db",
    concurrency_limit := 4, segment_duration_min := 30,
    retry_max_attempts := 5, backoff_base_seconds := 5 }

/-- Whether an `Except` value is a success. -/
def isOkE {ε α : Type} : Except ε α → Bool
  | Except.ok _ => true
  | Except.error _ => false

/-- Modelled from the spec: the retry backoff delay.  The source declares
the configuration fields `retry_max_attempts` and `backoff_base_seconds`
(`config.py`) for retry logic but contains no code computing a delay; the
spec defines the delay for attempt k (k at least 1), i.e. the wait before
attempt k+1, as `backoffBaseSeconds * 2^(k-1)`, deterministic, no jitter. -/
def backoffDelay (cfg : Config) (k : Nat) : Rat :=
  cfg.backoff_base_seconds * 2 ^ (k - 1)

/-!
### Recorder model (`recorder.py`)

`StreamRecorder.record` spawns a yt-dlp process, reads its output lines in a
loop (checking the cancellation event at the top of each iteration), then
remuxes with ffmpeg, falling back to a full transcode when the remux fails.
External effects are supplied through a `RecordEnv`: the index of the first
read-loop check at which the cancellation event is observed set, the output
lines together with their regex-match outcome, and the exit codes of the
external processes.
-/

/-- The error values `record` can place in `RecordingResult.error`; each
constructor corresponds to one `return RecordingResult(...)` site in the
source and `errorText` recovers the exact string the source builds. -/
inductive RecError where
  | cancelledErr
  | ytdlpExit (rc : Int)
  | ffmpegTranscodeExit (rc : Int)
  | exn (msg : String)
  deriving Repr, DecidableEq

/-- The error string the source stores for each `RecError`. -/
def errorText : RecError → String
  | RecError.cancelledErr => "Cancelled"
  | RecError.ytdlpExit rc => "yt-dlp exited with " ++ toString rc
  | RecError.ffmpegTranscodeExit rc => "ffmpeg transcode exited with " ++ toString rc
  | RecError.exn m => m

/-- Embeds the `RecordingResult` dataclass (timestamps abstracted away). -/
structure RecordingResult where
  success : Bool
  file_path : Option String
  metadata_path : Option String
  error : Option RecError
  deriving Repr, DecidableEq

/-- Embeds the `StreamRecorder` object state.  `has_on_update` records
whether an `on_update` callback was supplied and `cancelEvent` is the
is-set state of the `asyncio.Event` named `_cancel_event`. -/
structure StreamRecorder where
  channel_url : String
  output_dir : String
  segment_duration : Int
  quality : String
  has_on_update : Bool
  crf : Int
  cancelEvent : Bool
  deriving Repr, DecidableEq

/-- Embeds `StreamRecorder.cancel`: sets the cancellation event. -/
def StreamRecorder.cancel (r : StreamRecorder) : StreamRecorder :=
  { r with cancelEvent := true }

/-- One line read from the yt-dlp process, after `decode().strip()`,
together with the outcome of `progress_re.search` on it: either no match
(carrying the text), or a match carrying the four captured groups. -/
inductive LineRead where
  | noMatch (text : String)
  | matched (pct size unit eta : String)
  deriving Repr, DecidableEq

/-- A message delivered to the `on_update` callback: either the formatted
progress message built from the matched groups, or the raw line text. -/
inductive UpdateMsg where
  | progress (pct size unit eta : String)
  | raw (text : String)
  deriving Repr, DecidableEq

/-- Characters the `size` capture group `[0-9.]+` of `progress_re` can
produce. -/
def sizeCharOk (c : Char) : Bool := c.isDigit || c == '.'

/-- Whether a string is a possible value of the `size` capture group. -/
def sizeTextShape (s : String) : Bool := !s.isEmpty && s.toList.all sizeCharOk

/-- Whether Python `float()` accepts a string drawn from the characters
`[0-9.]+`: it must contain at least one digit and at most one dot
(otherwise `float()` raises `ValueError`). -/
def pyFloatValid (s : String) : Bool :=
  s.toList.any Char.isDigit && (s.toList.filter (fun c => c == '.')).length ≤ 1

/-- The body of the read loop for one line: when an `on_update` callback is
present and the text is non-empty, a regex match leads to `float(size)` --
which raises `ValueError` for an invalid number -- and otherwise the raw
text is forwarded.  Without a callback nothing is parsed.  An `Except.error`
models an exception propagating to the `except` clause of `record`. -/
def processLine (h : Bool) (l : LineRead) : Except String (Option UpdateMsg) :=
  if h then
    match l with
    | LineRead.noMatch t =>
        if t.isEmpty then Except.ok none else Except.ok (some (UpdateMsg.raw t))
    | LineRead.matched pct size unit eta =>
        if pyFloatValid size then Except.ok (some (UpdateMsg.progress pct size unit eta))
        else Except.error ("could not convert string to float: " ++ size)
  else Except.ok none

/-- Whether processing a line raises no exception. -/
def lineOk (h : Bool) (l : LineRead) : Bool :=
  match processLine h l with
  | Except.ok _ => true
  | Except.error _ => false

/-- How the read loop of `record` ends: by observing the cancellation
event, by an exception inside the `try` block, or by reading EOF. -/
inductive LoopExit where
  | cancelled
  | exn (msg : String)
  | eofReached
  deriving Repr, DecidableEq

/-- Whether the cancellation event is observed set at check number `j`
(`ca = some k` means the event becomes set just before check `k`). -/
def cancelSeen (ca : Option Nat) (j : Nat) : Bool :=
  match ca with
  | none => false
  | some k => decide (k ≤ j)

/-- The read loop of `record`: at the top of each iteration the
cancellation event is checked; then a line is read (EOF ends the loop) and
processed, an exception aborting the loop.  Returns how the loop ended and
the `on_update` messages delivered. -/
def readLoop (h : Bool) (ca : Option Nat) : Nat → List LineRead → LoopExit × List UpdateMsg
  | j, lines =>
    if cancelSeen ca j then (LoopExit.cancelled, [])
    else
      match lines with
      | [] => (LoopExit.eofReached, [])
      | l :: rest =>
        match processLine h l with
        | Except.error e => (LoopExit.exn e, [])
        | Except.ok u =>
          let res := readLoop h ca (j + 1) rest
          (res.fst, u.toList ++ res.snd)

/-- The environment of one `record` invocation: when the cancellation
event becomes observable, the process output lines, the yt-dlp exit code
`rc`, the ffmpeg stream-copy exit code, the ffmpeg transcode exit code,
the timestamp used to name the output file, and whether writing the
metadata file fails. -/
structure RecordEnv where
  cancelAt : Option Nat
  lines : List LineRead
  rc : Int
  remuxRc : Int
  transRc : Int
  startStamp : String
  metadataWriteFails : Bool
  deriving Repr, DecidableEq

/-- Tracks what happened to the spawned yt-dlp process: whether
`process.terminate()` was called and whether its exit was awaited
(`process.wait()`) before `record` returned. -/
structure ProcLog where
  terminated : Bool
  waited : Bool
  deriving Repr, DecidableEq

/-- Everything observable about one `record` invocation. -/
structure RecordOutcome where
  result : RecordingResult
  proc : ProcLog
  updates : List UpdateMsg
  deriving Repr, DecidableEq

/-- The check index at which the cancellation event is first observed set:
if `cancel` was called before `record`, the event is set from check 0;
otherwise the environment says when (if ever) it becomes set. -/
def effCancelAt (r : StreamRecorder) (env : RecordEnv) : Option Nat :=
  if r.cancelEvent then some 0 else env.cancelAt

/-- How `record` returns once its read loop has ended: on observed
cancellation terminate the process, await it and return the `Cancelled`
result; on an exception likewise terminate, await and return the exception
text; on EOF await the exit code, then remux with ffmpeg, falling back to a
full transcode when the remux exits non-zero, and failing only when the
fallback also exits non-zero. -/
def recordReturn (r : StreamRecorder) (env : RecordEnv)
    (loopEnd : LoopExit × List UpdateMsg) : RecordOutcome :=
  let output_file := r.output_dir ++ "/" ++ env.startStamp ++ ".mp4"
  let metadata_file := r.output_dir ++ "/" ++ env.startStamp ++ ".json"
  let successOutcome : List UpdateMsg → RecordOutcome := fun us =>
    { result := { success := true, file_path := some output_file,
                  metadata_path := if env.metadataWriteFails then none else some metadata_file,
                  error := none },
      proc := { terminated := false, waited := true }, updates := us }
  match loopEnd with
  | (LoopExit.cancelled, us) =>
      { result := { success := false, file_path := none, metadata_path := none,
                    error := some RecError.cancelledErr },
        proc := { terminated := true, waited := true }, updates := us }
  | (LoopExit.exn e, us) =>
      { result := { success := false, file_path := none, metadata_path := none,
                    error := some (RecError.exn e) },
        proc := { terminated := true, waited := true }, updates := us }
  | (LoopExit.eofReached, us) =>
      if env.rc ≠ 0 then
        { result := { success := false, file_path := none, metadata_path := none,
                      error := some (RecError.ytdlpExit env.rc) },
          proc := { terminated := false, waited := true }, updates := us }
      else if env.remuxRc ≠ 0 then
        if env.transRc ≠ 0 then
          { result := { success := false, file_path := none, metadata_path := none,
                        error := some (RecError.ffmpegTranscodeExit env.transRc) },
            proc := { terminated := false, waited := true }, updates := us }
        else successOutcome us
      else successOutcome us

/-- Embeds `StreamRecorder.record`: run the read loop, then return as the
source does for the way the loop ended. -/
def StreamRecorder.record (r : StreamRecorder) (env : RecordEnv) : RecordOutcome :=
  recordReturn r env (readLoop r.has_on_update (effCancelAt r env) 0 env.lines)

/-!
### Scheduler model (`scheduler.py`)

The scheduler keeps an asyncio queue of `RecordingTask`s and a dict
`running` from futures to tasks.  Its worker loop repeatedly: waits for
completions while `len(running) >= concurrency_limit`, popping each done
future and storing its result on the task; then dequeues the next task
(with a 0.5 s timeout, `continue` on timeout) and launches a recorder for
it.  `shutdown` sets `self._cancelled`; when the loop observes the flag it
exits, calls `recorder.cancel()` and `fut.cancel()` on every running task
and gathers them.  Nondeterminism (which futures complete at each wait,
whether the dequeue times out, what result a launched pipeline produces)
is supplied through explicit schedule inputs.
-/

/-- Embeds the `RecordingTask` dataclass (the `recorder` and `future`
fields are modelled on the running entry instead). -/
structure RecordingTask where
  url : String
  quality : String
  result : Option RecordingResult
  deriving Repr, DecidableEq

/-- One entry of the `running` dict: the task, the result its future will
yield when it completes, and the cancellation state of its recorder event
and of the future itself. -/
structure RunningEntry where
  task : RecordingTask
  outcome : RecordingResult
  recorderCancelled : Bool
  futureCancelled : Bool
  deriving Repr, DecidableEq

/-- Embeds the `Scheduler` object state (`finished` collects tasks popped
from `running` with their result stored, for observation). -/
structure Scheduler where
  config : Config
  download_dir : String
  queue : List RecordingTask
  running : List RunningEntry
  finished : List RecordingTask
  cancelled : Bool
  deriving Repr, DecidableEq

/-- Embeds `Scheduler.__init__`: empty queue, empty running dict, the
cancelled flag clear. -/
def initScheduler (cfg : Config) (download_dir : String) : Scheduler :=
  { config := cfg, download_dir := download_dir, queue := [], running := [],
    finished := [], cancelled := false }

/-- Embeds `Scheduler.add_recording`: builds a `RecordingTask` and appends
it to the queue; there is no shutdown check and no failure path. -/
def Scheduler.add_recording (s : Scheduler) (url : String) (quality : String) : Scheduler :=
  { s with queue := s.queue ++ [{ url := url, quality := quality, result := none }] }

/-- Embeds `Scheduler.shutdown`: sets `self._cancelled` and returns. -/
def Scheduler.shutdown (s : Scheduler) : Scheduler :=
  { s with cancelled := true }

/-- Splits a list into the elements selected by a mask and the rest,
preserving order (elements beyond the mask are not selected). -/
def splitByMask {α : Type} : List Bool → List α → List α × List α
  | _, [] => ([], [])
  | [], x :: xs => ([], x :: xs)
  | b :: bs, x :: xs =>
    let p := splitByMask bs xs
    if b then (x :: p.1, p.2) else (p.1, x :: p.2)

/-- The `done` set returned by `asyncio.wait(..., FIRST_COMPLETED)` on a
non-empty set of futures is non-empty: when the mask selects nothing the
wait suspends until some future completes, modelled as the first entry. -/
def doneSplit {α : Type} (mask : List Bool) (xs : List α) : List α × List α :=
  let p := splitByMask mask xs
  if p.1.isEmpty then (xs.take 1, xs.drop 1) else p

/-- Popping a done future: `rec_task.result = d.result()`. -/
def settle (e : RunningEntry) : RecordingTask :=
  { e.task with result := some e.outcome }

/-- The inner `while len(self.running) >= self.config.concurrency_limit`
loop: each round awaits completions (a non-empty done set chosen by the
next mask), pops them from `running` and stores their results.  `none`
means the supplied schedule ended while the wait was still blocking. -/
def drainLoop (limit : Int) :
    List (List Bool) → List RunningEntry → List RecordingTask →
    Option (List RunningEntry × List RecordingTask)
  | masks, running, fin =>
    if (running.length : Int) < limit then some (running, fin)
    else
      match masks with
      | [] => none
      | m :: ms =>
        drainLoop limit ms (doneSplit m running).2
          (fin ++ (doneSplit m running).1.map settle)

/-- The schedule input for one worker-loop iteration: the completion masks
consumed by the inner wait, whether `queue.get` returned within its 0.5 s
timeout, and the pipeline result the launched recorder will produce. -/
structure IterInput where
  masks : List (List Bool)
  dequeued : Bool
  outcome : RecordingResult
  deriving Repr, DecidableEq

/-- One iteration of the body of `Scheduler._worker_loop` (entered with the
cancelled flag clear): drain to below the concurrency limit, then try to
dequeue; on timeout `continue`, otherwise launch a recorder task for the
dequeued entry and add it to `running`. -/
def loopIter (inp : IterInput) (s : Scheduler) : Option Scheduler :=
  match drainLoop s.config.concurrency_limit inp.masks s.running s.finished with
  | none => none
  | some (run1, fin1) =>
    match s.queue, inp.dequeued with
    | t :: rest, true =>
      some { s with queue := rest, finished := fin1,
                    running := run1 ++ [{ task := t, outcome := inp.outcome,
                                          recorderCancelled := false,
                                          futureCancelled := false }] }
    | _, _ => some { s with finished := fin1, running := run1 }

/-- The cleanup run when the worker loop observes the cancelled flag:
`recorder.cancel()` and `fut.cancel()` on every running entry, then the
futures are gathered.  The queue is not touched and no results are
stored. -/
def Scheduler.shutdownCleanup (s : Scheduler) : Scheduler :=
  { s with running := s.running.map (fun e =>
      { e with recorderCancelled := true, futureCancelled := true }) }

/-- Embeds `Scheduler._worker_loop` driven by a finite schedule of
iteration inputs: while the cancelled flag is clear run iterations; when
the flag is observed, run the shutdown cleanup and exit.  `none` means an
inner wait blocked beyond the supplied schedule; `some s` with the inputs
exhausted means the loop is still live in state `s`. -/
def runLoop : List IterInput → Scheduler → Option Scheduler
  | [], s => some s
  | inp :: rest, s =>
    if s.cancelled then some s.shutdownCleanup
    else
      match loopIter inp s with
      | none => none
      | some s2 => runLoop rest s2

/-!
### Concrete fixtures used by witnesses and counterexamples
-/

/-- A recorder with an `on_update` callback and the event clear. -/
def sampleRecorder : StreamRecorder :=
  { channel_url := "https://example.com/live", output_dir := "/out",
    segment_duration := 30, quality := "best", has_on_update := true,
    crf := 23, cancelEvent := false }

/-- An environment whose single progress line matches the regex with the
size text `1.2.3`, a string drawn from `[0-9.]+` that Python `float()`
rejects. -/
def envBad : RecordEnv :=
  { cancelAt := none, lines := [LineRead.matched "12.5" "1.2.3" "MiB" "00:10"],
    rc := 0, remuxRc := 0, transRc := 0, startStamp := "S",
    metadataWriteFails := false }

/-- An environment with one well-formed non-matching output line. -/
def envGood : RecordEnv :=
  { cancelAt := none, lines := [LineRead.noMatch "hello"],
    rc := 0, remuxRc := 0, transRc := 0, startStamp := "S",
    metadataWriteFails := false }

/-- An environment where the download succeeds but the stream-copy remux
exits non-zero while the fallback transcode exits zero. -/
def envRemuxFail : RecordEnv :=
  { cancelAt := none, lines := [], rc := 0, remuxRc := 1, transRc := 0,
    startStamp := "S", metadataWriteFails := false }

/-- A successful pipeline result. -/
def okRes : RecordingResult :=
  { success := true, file_path := some "/out/S.mp4", metadata_path := none,
    error := none }

/-- A transiently failed pipeline result (non-zero yt-dlp exit). -/
def failRes : RecordingResult :=
  { success := false, file_path := none, metadata_path := none,
    error := some (RecError.ytdlpExit 1) }

/-- A config with concurrency limit 1 and three retry attempts allowed. -/
def cfg1 : Config :=
  { defaultConfig with concurrency_limit := 1, retry_max_attempts := 3 }

/-- A config with concurrency limit 2. -/
def cfg2 : Config :=
  { defaultConfig with concurrency_limit := 2 }

/-- A scheduler with a single freshly submitted job. -/
def s0fail : Scheduler :=
  (initScheduler cfg1 "/tmp").add_recording "https://example.com/stream" "best"

/-- Schedule: iteration one dequeues the job and launches a recorder whose
pipeline fails transiently; iteration two waits (the job is the whole
running set at limit 1), observes its completion and pops it; the dequeue
then times out. -/
def inps2 : List IterInput :=
  [{ masks := [], dequeued := true, outcome := failRes },
   { masks := [[true]], dequeued := false, outcome := failRes }]

/-- Queued tasks used in the shutdown scenario. -/
def t3 : RecordingTask := { url := "c", quality := "best", result := none }

/-- Second queued task of the shutdown scenario. -/
def t4 : RecordingTask := { url := "d", quality := "best", result := none }

/-- Third queued task of the shutdown scenario. -/
def t5 : RecordingTask := { url := "e", quality := "best", result := none }

/-- A running entry whose pipeline would succeed. -/
def e1 : RunningEntry :=
  { task := { url := "a", quality := "best", result := none }, outcome := okRes,
    recorderCancelled := false, futureCancelled := false }

/-- A second running entry whose pipeline would succeed. -/
def e2 : RunningEntry :=
  { task := { url := "b", quality := "best", result := none }, outcome := okRes,
    recorderCancelled := false, futureCancelled := false }

/-- Scenario E state: concurrency limit 2, two jobs running, three queued. -/
def s5 : Scheduler :=
  { config := cfg2, download_dir := "/tmp", queue := [t3, t4, t5],
    running := [e1, e2], finished := [], cancelled := false }

/-- An iteration input whose wait schedule is empty and whose dequeue times
out. -/
def iterNull : IterInput := { masks := [], dequeued := false, outcome := okRes }

/-!
### Claims about the configuration (C9) and the backoff law (C5)
-/

/-- C9 counterexample: constructing a `Config` with `retry_max_attempts = 0`
and `backoff_base_seconds = -1` succeeds, although the claim says
construction raises a validation error for any input violating
`retryMaxAttempts >= 1` or `backoffBaseSeconds > 0`. -/
theorem mkConfig_accepts_invalid_retry_and_backoff :
    mkConfig "d" "p" 4 30 0 (-1) =
      Except.ok { download_dir := "d", db_path := "p", concurrency_limit := 4,
                  segment_duration_min := 30, retry_max_attempts := 0,
                  backoff_base_seconds := -1 } ∧
    (0 : Int) < 1 ∧ (-1 : Rat) ≤ 0 := by
  refine ⟨rfl, by norm_num, by norm_num⟩

/-- C9 (amended): `Config` construction succeeds exactly when
`concurrency_limit >= 1` and `segment_duration_min >= 1` -- these are the
only validated bounds, so every constructed `Config` has
`concurrency_limit >= 1`, while `retry_max_attempts` and
`backoff_base_seconds` are accepted unvalidated. -/
theorem mkConfig_validates_concurrency (dd dp : String) (c s r : Int) (b : Rat) :
    (isOkE (mkConfig dd dp c s r b) = true ↔ (1 ≤ c ∧ 1 ≤ s)) ∧
    ∀ cfg, mkConfig dd dp c s r b = Except.ok cfg →
      cfg.concurrency_limit = c ∧ 1 ≤ cfg.concurrency_limit ∧
      cfg.retry_max_attempts = r ∧ cfg.backoff_base_seconds = b := by
  unfold mkConfig validate_concurrency validate_segment_duration
  by_cases hc : c < 1 <;> by_cases hs : s < 1 <;>
    simp only [hc, hs, if_pos, if_neg, isOkE] <;>
    constructor
  · simp; omega
  · intro cfg h; cases h
  · simp; omega
  · intro cfg h; cases h
  · simp; omega
  · intro cfg h; cases h
  · simp; omega
  · rintro cfg ⟨rfl⟩
    refine ⟨rfl, ?_, rfl, rfl⟩
    show (1 : Int) ≤ c
    omega

/-- C9 witness: a config with valid concurrency and segment duration is
constructed successfully. -/
theorem mkConfig_validates_concurrency_witness :
    isOkE (mkConfig "d" "p" 4 30 5 5) = true :=
  (mkConfig_validates_concurrency "d" "p" 4 30 5 5).1.mpr (by norm_num)

/-- C5: the retry delay before attempt k+1 is
`backoff_base_seconds * 2^(k-1)`, doubling from one attempt to the next,
and for a base of 2 the delays before attempts 2, 3, 4 are 2, 4 and 8
seconds. -/
theorem backoff_delay_law (cfg : Config) (k : Nat)
    (hb : 0 < cfg.backoff_base_seconds) (hk : 1 ≤ k) :
    backoffDelay cfg k = cfg.backoff_base_seconds * 2 ^ (k - 1) ∧
    backoffDelay cfg (k + 1) = 2 * backoffDelay cfg k ∧
    backoffDelay { cfg with backoff_base_seconds := 2 } 1 = 2 ∧
    backoffDelay { cfg with backoff_base_seconds := 2 } 2 = 4 ∧
    backoffDelay { cfg with backoff_base_seconds := 2 } 3 = 8 := by
  have h1 : k - 1 + 1 = k := Nat.sub_add_cancel hk
  refine ⟨rfl, ?_, by norm_num [backoffDelay], by norm_num [backoffDelay],
          by norm_num [backoffDelay]⟩
  have h3 : (2 : Rat) ^ k = 2 ^ (k - 1) * 2 := by
    conv_lhs => rw [← h1]
    rw [pow_succ]
  unfold backoffDelay
  rw [Nat.add_sub_cancel, h3]
  ring

/-- C5 witness: with the default config (base 5 seconds) the law applies at
k = 1; the delay before attempt 3 at base 2 is 4 seconds. -/
theorem backoff_delay_law_witness :
    backoffDelay { defaultConfig with backoff_base_seconds := 2 } 2 = 4 :=
  (backoff_delay_law defaultConfig 1 (by norm_num [defaultConfig]) (by norm_num)).2.2.2.1

/-!
### Claims about submission and cancellation (C4, C8)
-/

/-- C4 counterexample: after `shutdown` has begun, `add_recording` still
enqueues the job and produces no `SchedulerClosed` error -- no such error
exists in the code -- although the claim says the job is not enqueued and
the caller receives `SchedulerClosed`. -/
theorem add_recording_after_shutdown_enqueues :
    ((initScheduler cfg2 "/tmp").shutdown.add_recording "u" "best").queue =
      [{ url := "u", quality := "best", result := none }] ∧
    ((initScheduler cfg2 "/tmp").shutdown).cancelled = true := ⟨rfl, rfl⟩

/-- C4 (amended): `add_recording` never fails: it unconditionally appends
the new task to the queue -- also when called after `shutdown` -- and
leaves the shutdown flag untouched; there is no `SchedulerClosed` error
path. -/
theorem add_recording_never_fails (s : Scheduler) (url quality : String) :
    (s.add_recording url quality).queue =
      s.queue ++ [{ url := url, quality := quality, result := none }] ∧
    (s.shutdown.add_recording url quality).queue =
      s.queue ++ [{ url := url, quality := quality, result := none }] ∧
    (s.add_recording url quality).cancelled = s.cancelled := ⟨rfl, rfl, rfl⟩

/-- C8: `StreamRecorder.cancel` only sets the cancellation event, so
requesting cancellation twice leaves the recorder state exactly as
requesting it once does. -/
theorem cancel_idempotent (r : StreamRecorder) :
    r.cancel.cancel = r.cancel ∧ r.cancel.cancelEvent = true ∧
    r.cancel = { r with cancelEvent := true } := ⟨rfl, rfl, rfl⟩

/-!
### Read-loop lemmas and the recorder claims (C6, C7, C10)
-/

/-- When the cancellation event is never set, the read loop never ends by
observing it. -/
theorem readLoop_none_not_cancelled (h : Bool) :
    ∀ (lines : List LineRead) (j : Nat),
      (readLoop h none j lines).1 ≠ LoopExit.cancelled := by
  intro lines
  induction lines with
  | nil =>
    intro j
    rw [readLoop]
    simp [cancelSeen]
  | cons l rest ih =>
    intro j
    rw [readLoop]
    simp only [cancelSeen, Bool.false_eq_true, if_false]
    cases hp : processLine h l with
    | error e => simp
    | ok u => simpa using ih (j + 1)

/-- When the cancellation event is never set and every line processes
without an exception, the read loop runs to EOF. -/
theorem readLoop_all_ok_eof (h : Bool) :
    ∀ (lines : List LineRead) (j : Nat),
      (∀ l ∈ lines, lineOk h l = true) →
      (readLoop h none j lines).1 = LoopExit.eofReached := by
  intro lines
  induction lines with
  | nil =>
    intro j _
    rw [readLoop]
    simp [cancelSeen]
  | cons l rest ih =>
    intro j hok
    rw [readLoop]
    simp only [cancelSeen, Bool.false_eq_true, if_false]
    have hhead : lineOk h l = true := hok l (List.mem_cons_self l rest)
    cases hp : processLine h l with
    | error e => simp [lineOk, hp] at hhead
    | ok u =>
      have := ih (j + 1) (fun l2 hl2 => hok l2 (List.mem_cons_of_mem l hl2))
      simpa using this

/-- When the cancellation event becomes set at check `k`, the loop has at
least `k` lines left before EOF, and the lines read before check `k`
process without an exception, then the read loop ends by observing the
cancellation. -/
theorem readLoop_cancel_reached (h : Bool) (k : Nat) :
    ∀ (lines : List LineRead) (j : Nat),
      k ≤ j + lines.length →
      (∀ l ∈ List.take (k - j) lines, lineOk h l = true) →
      (readLoop h (some k) j lines).1 = LoopExit.cancelled := by
  intro lines
  induction lines with
  | nil =>
    intro j hlen _
    have hkj : k ≤ j := by simpa using hlen
    rw [readLoop]
    simp [cancelSeen, hkj]
  | cons l rest ih =>
    intro j hlen hok
    rw [readLoop]
    by_cases hkj : k ≤ j
    · simp [cancelSeen, hkj]
    · simp only [cancelSeen, hkj, decide_False, Bool.false_eq_true, if_false]
      have hm : k - j = (k - j - 1) + 1 := by omega
      have hhead : lineOk h l = true := by
        apply hok
        rw [hm, List.take_succ_cons]
        exact List.mem_cons_self _ _
      cases hp : processLine h l with
      | error e => simp [lineOk, hp] at hhead
      | ok u =>
        have hrec : (readLoop h (some k) (j + 1) rest).1 = LoopExit.cancelled := by
          apply ih (j + 1)
          · simp only [List.length_cons] at hlen
            omega
          · intro l2 hl2
            apply hok
            rw [hm, List.take_succ_cons]
            refine List.mem_cons_of_mem _ ?_
            have he : k - (j + 1) = k - j - 1 := by omega
            rwa [he] at hl2
        simpa using hrec

/-- A `record` run that never observes the cancellation event never
produces the `Cancelled` error. -/
theorem record_no_cancel_no_cancelledErr (r : StreamRecorder) (env : RecordEnv)
    (hca : effCancelAt r env = none) :
    (r.record env).result.error ≠ some RecError.cancelledErr := by
  unfold StreamRecorder.record
  rw [hca]
  rcases hE : readLoop r.has_on_update none 0 env.lines with ⟨ex, us⟩
  have hnc : ex ≠ LoopExit.cancelled := by
    have h0 := readLoop_none_not_cancelled r.has_on_update env.lines 0
    rw [hE] at h0
    simpa using h0
  cases ex with
  | cancelled => exact absurd rfl hnc
  | exn e => simp [recordReturn]
  | eofReached =>
    simp only [recordReturn]
    split
    · simp
    · split
      · split
        · simp
        · simp
      · simp

/-- C6: when the cancellation event is observed at a checkpoint of the
output-reading loop (it is set before check `k`, which the loop reaches),
`record` terminates the external process, awaits its exit before
returning, and returns the distinct `Cancelled` error -- which no
non-cancelled run ever produces, so the outcome never looks like an
ordinary failure. -/
theorem record_cancellation_distinct (r : StreamRecorder) (env : RecordEnv) (k : Nat)
    (hca : effCancelAt r env = some k) (hk : k ≤ env.lines.length)
    (hok : ∀ l ∈ List.take k env.lines, lineOk r.has_on_update l = true) :
    (r.record env).result.success = false ∧
    (r.record env).result.error = some RecError.cancelledErr ∧
    (r.record env).proc.terminated = true ∧
    (r.record env).proc.waited = true ∧
    errorText RecError.cancelledErr = "Cancelled" ∧
    ∀ (r2 : StreamRecorder) (env2 : RecordEnv), effCancelAt r2 env2 = none →
      (r2.record env2).result.error ≠ some RecError.cancelledErr := by
  have hcanc : (readLoop r.has_on_update (effCancelAt r env) 0 env.lines).1 =
      LoopExit.cancelled := by
    rw [hca]
    apply readLoop_cancel_reached
    · simpa using hk
    · simpa using hok
  unfold StreamRecorder.record
  rcases hE : readLoop r.has_on_update (effCancelAt r env) 0 env.lines with ⟨ex, us⟩
  rw [hE] at hcanc
  simp only at hcanc
  subst hcanc
  exact ⟨rfl, rfl, rfl, rfl, rfl, fun r2 env2 h2 => record_no_cancel_no_cancelledErr r2 env2 h2⟩

/-- C6 witness: a recorder cancelled before `record` starts returns the
`Cancelled` result with the process terminated and awaited. -/
theorem record_cancellation_distinct_witness :
    (sampleRecorder.cancel.record envBad).result.error = some RecError.cancelledErr ∧
    (sampleRecorder.cancel.record envBad).proc.waited = true := by
  have h := record_cancellation_distinct sampleRecorder.cancel envBad 0 rfl
    (Nat.zero_le _) (by simp)
  exact ⟨h.2.1, h.2.2.2.1⟩

/-- C7 counterexample: the progress regex can match a line whose size text
is `1.2.3` -- a string within the `[0-9.]+` capture class that Python
`float()` rejects -- and on such a line `record` returns a failed result
(the `ValueError` propagates to the `except` clause), although the claim
says a parse failure never causes `record` to return a failed result.
Without that line the same run succeeds. -/
theorem parse_failure_fails_job :
    (sampleRecorder.record envBad).result.success = false ∧
    (sampleRecorder.record envBad).result.error =
      some (RecError.exn "could not convert string to float: 1.2.3") ∧
    (sampleRecorder.record { envBad with lines := [] }).result.success = true ∧
    sizeTextShape "1.2.3" = true ∧
    pyFloatValid "1.2.3" = false := ⟨rfl, rfl, rfl, rfl, rfl⟩

/-- C7 (amended): progress lines that the regex does not match (or are
empty, or arrive with no callback installed) never change the outcome of
`record`: a run whose lines all process without an exception produces the
same result as the run with no output lines at all.  However, a matched
line whose size text is not a valid Python float raises `ValueError`, which
makes `record` return a failed result. -/
theorem record_progress_best_effort (r : StreamRecorder) (env : RecordEnv)
    (hca : effCancelAt r env = none)
    (hok : ∀ l ∈ env.lines, lineOk r.has_on_update l = true) :
    (r.record env).result = (r.record { env with lines := [] }).result := by
  have hca2 : effCancelAt r { env with lines := [] } = none := by
    unfold effCancelAt at hca ⊢
    split at hca
    · exact absurd hca (by simp)
    · split
      · simp_all
      · exact hca
  unfold StreamRecorder.record
  rw [hca, hca2]
  rcases hE : readLoop r.has_on_update none 0 env.lines with ⟨ex, us⟩
  have heof : ex = LoopExit.eofReached := by
    have h0 := readLoop_all_ok_eof r.has_on_update env.lines 0 hok
    rw [hE] at h0
    simpa using h0
  subst heof
  have hE2 : readLoop r.has_on_update none 0
      ({ env with lines := [] } : RecordEnv).lines = (LoopExit.eofReached, []) := by
    rw [readLoop]
    simp [cancelSeen]
  rw [hE2]
  unfold recordReturn
  simp only
  split
  · rfl
  · split
    · split
      · rfl
      · rfl
    · rfl

/-- C7 witness: a run with one non-matching line has the same result as
the run with no lines. -/
theorem record_progress_best_effort_witness :
    (sampleRecorder.record envGood).result =
      (sampleRecorder.record { envGood with lines := [] }).result :=
  record_progress_best_effort sampleRecorder envGood rfl (by decide)

/-- C10: when cancellation is never observed, every output line processes
cleanly, the download exits 0 and the stream-copy remux exits non-zero,
`record` does not fail the job: it succeeds exactly when the fallback
transcode exits 0 (carrying the output file path), and fails with the
transcode error otherwise. -/
theorem remux_fallback_transcode (r : StreamRecorder) (env : RecordEnv)
    (hca : effCancelAt r env = none)
    (hok : ∀ l ∈ env.lines, lineOk r.has_on_update l = true)
    (hrc : env.rc = 0) (hremux : env.remuxRc ≠ 0) :
    ((r.record env).result.success = true ↔ env.transRc = 0) ∧
    (env.transRc = 0 →
      (r.record env).result.file_path =
        some (r.output_dir ++ "/" ++ env.startStamp ++ ".mp4")) ∧
    (env.transRc ≠ 0 →
      (r.record env).result.error = some (RecError.ffmpegTranscodeExit env.transRc)) := by
  unfold StreamRecorder.record
  rw [hca]
  rcases hE : readLoop r.has_on_update none 0 env.lines with ⟨ex, us⟩
  have heof : ex = LoopExit.eofReached := by
    have h0 := readLoop_all_ok_eof r.has_on_update env.lines 0 hok
    rw [hE] at h0
    simpa using h0
  subst heof
  unfold recordReturn
  simp only [hrc, ne_eq, not_true_eq_false, if_false, hremux, not_false_eq_true, if_true]
  by_cases ht : env.transRc = 0
  · simp [ht]
  · simp [ht]

/-- C10 witness: with download exit 0, remux exit 1 and transcode exit 0,
the recording succeeds and carries the output path. -/
theorem remux_fallback_transcode_witness :
    (sampleRecorder.record envRemuxFail).result.success = true :=
  ((remux_fallback_transcode sampleRecorder envRemuxFail rfl (by simp [envRemuxFail])
    rfl (by decide)).1).mpr rfl

/-!
### Worker-loop lemmas and the scheduler claims (C1, C2, C3)
-/

/-- The inner wait loop only hands control back to the dequeue point with
strictly fewer running tasks than the concurrency limit: this is the gate
condition under which a new task may be launched. -/
theorem drainLoop_some_lt (limit : Int) :
    ∀ (masks : List (List Bool)) (running : List RunningEntry)
      (run1 : List RunningEntry) (acc1 : List RecordingTask)
      (acc0 : List RecordingTask),
      drainLoop limit masks running acc0 = some (run1, acc1) →
      (run1.length : Int) < limit := by
  intro masks
  induction masks with
  | nil =>
    intro running run1 acc1 acc0 h
    rw [drainLoop] at h
    split at h
    · simp only [Option.some.injEq, Prod.mk.injEq] at h
      obtain ⟨h1, _⟩ := h
      subst h1
      assumption
    · cases h
  | cons m ms ih =>
    intro running run1 acc1 acc0 h
    rw [drainLoop] at h
    split at h
    · simp only [Option.some.injEq, Prod.mk.injEq] at h
      obtain ⟨h1, _⟩ := h
      subst h1
      assumption
    · exact ih _ _ _ _ h

/-- One worker-loop iteration keeps the number of running tasks at or
below the concurrency limit and does not change the configuration: a task
is launched only from the state the drain loop certifies to be strictly
below the limit. -/
theorem loopIter_running_le (inp : IterInput) (s s2 : Scheduler)
    (h : loopIter inp s = some s2) :
    (s2.running.length : Int) ≤ s.config.concurrency_limit ∧
    s2.config = s.config := by
  unfold loopIter at h
  cases hd : drainLoop s.config.concurrency_limit inp.masks s.running s.finished with
  | none => rw [hd] at h; cases h
  | some p =>
    obtain ⟨run1, fin1⟩ := p
    have hlt := drainLoop_some_lt s.config.concurrency_limit inp.masks s.running
      run1 fin1 s.finished hd
    rw [hd] at h
    rcases hq : s.queue with _ | ⟨t, rest⟩ <;> rw [hq] at h <;>
      rcases hb : inp.dequeued <;> rw [hb] at h <;>
      simp only [Option.some.injEq] at h <;> subst h
    · exact ⟨by simpa using le_of_lt hlt, rfl⟩
    · exact ⟨by simpa using le_of_lt hlt, rfl⟩
    · exact ⟨by simpa using le_of_lt hlt, rfl⟩
    · constructor
      · simp only [List.length_append, List.length_cons, List.length_nil]
        push_cast
        omega
      · rfl

/-- Running the worker loop from any state within the concurrency bound
stays within the bound and preserves the configuration. -/
theorem runLoop_running_le :
    ∀ (inputs : List IterInput) (s sf : Scheduler),
      (s.running.length : Int) ≤ s.config.concurrency_limit →
      runLoop inputs s = some sf →
      (sf.running.length : Int) ≤ s.config.concurrency_limit ∧
      sf.config = s.config := by
  intro inputs
  induction inputs with
  | nil =>
    intro s sf hs h
    rw [runLoop] at h
    simp only [Option.some.injEq] at h
    subst h
    exact ⟨hs, rfl⟩
  | cons inp rest ih =>
    intro s sf hs h
    rw [runLoop] at h
    split at h
    · simp only [Option.some.injEq] at h
      subst h
      refine ⟨?_, rfl⟩
      simpa [Scheduler.shutdownCleanup] using hs
    · cases hit : loopIter inp s with
      | none => rw [hit] at h; cases h
      | some s2 =>
        rw [hit] at h
        have h2 := loopIter_running_le inp s s2 hit
        have h3 := ih s2 sf (by rw [h2.2]; exact h2.1) h
        rw [h2.2] at h3
        exact h3

/-- C1: across every run of the worker loop from a state within the bound
(in particular from the initial empty state), the number of simultaneously
running recording tasks never exceeds the configured concurrency limit,
and the drain loop releases control to the launch point only with the
running set strictly below the limit, so a new task is launched only when
`len(running)` is strictly below `config.concurrency_limit`. -/
theorem concurrency_limit_invariant (inputs : List IterInput) (s sf : Scheduler)
    (hstart : (s.running.length : Int) ≤ s.config.concurrency_limit)
    (hrun : runLoop inputs s = some sf) :
    (sf.running.length : Int) ≤ s.config.concurrency_limit ∧
    ∀ (masks : List (List Bool)) (run0 : List RunningEntry)
      (acc0 : List RecordingTask) (run1 : List RunningEntry)
      (acc1 : List RecordingTask),
      drainLoop s.config.concurrency_limit masks run0 acc0 = some (run1, acc1) →
      (run1.length : Int) < s.config.concurrency_limit := by
  refine ⟨(runLoop_running_le inputs s sf hstart hrun).1, ?_⟩
  intro masks run0 acc0 run1 acc1 hd
  exact drainLoop_some_lt s.config.concurrency_limit masks run0 run1 acc1 acc0 hd

/-- Schedule for the C1 witness: three iterations at limit 2 -- dequeue and
launch twice, then a wait that pops one completed task before launching a
third. -/
def inpsA : List IterInput :=
  [{ masks := [], dequeued := true, outcome := okRes },
   { masks := [], dequeued := true, outcome := okRes },
   { masks := [[true, false]], dequeued := true, outcome := okRes }]

/-- Five submitted jobs at concurrency limit 2 (scenario A shape). -/
def sInitA : Scheduler :=
  ((((((initScheduler cfg2 "/tmp").add_recording "u1" "best").add_recording
    "u2" "best").add_recording "u3" "best").add_recording
    "u4" "best").add_recording "u5" "best")

/-- The state after driving the C1 witness schedule. -/
def sAfterA : Scheduler := (runLoop inpsA sInitA).getD sInitA

/-- C1 witness: the bound holds after a concrete three-iteration run that
launches three of five submitted jobs at limit 2. -/
theorem concurrency_limit_invariant_witness :
    (sAfterA.running.length : Int) ≤ sInitA.config.concurrency_limit :=
  (concurrency_limit_invariant inpsA sInitA sAfterA (by decide) (by rfl)).1

/-- C2 (code bug): the worker loop contains no retry wiring at all.  In a
scheduler configured with `retry_max_attempts = 3`, a job whose pipeline
fails transiently on its first attempt is popped with its failed result
stored and is never placed back on the queue: the run ends with the queue
empty, nothing running, and the job failed -- not `Succeeded` on a second
attempt as the claim requires. -/
theorem worker_loop_never_retries :
    runLoop inps2 s0fail =
      some { config := cfg1, download_dir := "/tmp", queue := [], running := [],
             finished := [{ url := "https://example.com/stream", quality := "best",
                            result := some failRes }],
             cancelled := false } ∧
    failRes.success = false ∧
    cfg1.retry_max_attempts = 3 := ⟨rfl, rfl, rfl⟩

/-- C3 counterexample: with two jobs running and three queued (scenario E),
`shutdown` returns with the running and queued jobs exactly as they were
-- nothing has been cancelled when it returns -- and even after the worker
loop observes the flag and finishes, the three queued jobs are still
sitting in the queue with no result, not drained to any terminal state. -/
theorem shutdown_does_not_drain_queue :
    (s5.shutdown).running = s5.running ∧
    (s5.shutdown).queue = [t3, t4, t5] ∧
    Option.map Scheduler.queue (runLoop [iterNull] s5.shutdown) =
      some [t3, t4, t5] ∧
    t3.result = none ∧ t4.result = none ∧ t5.result = none :=
  ⟨rfl, rfl, rfl, rfl, rfl, rfl⟩

/-- C3 (amended): `shutdown()` only sets the cancelled flag and returns
immediately.  When the worker loop next observes the flag it stops
dequeuing, sets the cancellation event of every running task's recorder,
cancels every running future and gathers them -- but still-queued jobs are
left on the queue untouched rather than drained to `Cancelled`. -/
theorem shutdown_requests_cancel_only (s : Scheduler) (inp : IterInput)
    (inputs : List IterInput) :
    (s.shutdown).cancelled = true ∧
    runLoop (inp :: inputs) s.shutdown = some s.shutdown.shutdownCleanup ∧
    (s.shutdown.shutdownCleanup).queue = s.queue ∧
    ∀ e ∈ (s.shutdown.shutdownCleanup).running,
      e.recorderCancelled = true ∧ e.futureCancelled = true := by
  refine ⟨rfl, rfl, rfl, ?_⟩
  intro e he
  simp only [Scheduler.shutdownCleanup, Scheduler.shutdown, List.mem_map] at he
  obtain ⟨a, _, rfl⟩ := he
  exact ⟨rfl, rfl⟩

/-- C3 witness: in the scenario E state the loop performs the cleanup and
exits. -/
theorem shutdown_requests_cancel_only_witness :
    runLoop [iterNull] s5.shutdown = some s5.shutdown.shutdownCleanup ∧
    (s5.shutdown.shutdownCleanup).queue = s5.queue :=
  ⟨(shutdown_requests_cancel_only s5 iterNull []).2.1,
   (shutdown_requests_cancel_only s5 iterNull []).2.2.1⟩

end Multirec
